import Mathlib

/-!
Shallow embedding of the subsection activity-tracking core of KsaiLab
(progress records, completion-percentage policy, activity validation,
bot detection, rate limiting, and the start/heartbeat/complete endpoints),
together with proofs checking the natural-language specification's claims
against the embedded code.

Timestamps are rationals (seconds); the Python `datetime` arithmetic
(`.total_seconds()`) is embedded as subtraction on `ℚ`.  Machine floats in
the source hold only small exact values here, so `ℚ` is a faithful carrier.
Python's `int(x)` (truncation toward zero) is `pyTrunc`.
-/

namespace KsaiLab

/-- Truncation toward zero, the behaviour of Python's `int()` on a float. -/
def pyTrunc (q : ℚ) : Int :=
  if 0 ≤ q then ⌊q⌋ else ⌈q⌉

/-- Policy fields of the `Subsection` model: `required_time_minutes`
(nullable, recommended viewing time in minutes) and `min_time_seconds`
(default 30, floor for counting progress). -/
structure Subsection where
  required_time_minutes : Option Int
  min_time_seconds : Option Int
deriving DecidableEq, Repr

/-- The tracking fields of the `SubsectionProgress` model.
`activity_sessions` mirrors the JSON history `[{start, end, duration}]`. -/
structure SubsectionProgress where
  time_spent_seconds : Int
  last_activity_at : Option ℚ
  session_start_at : Option ℚ
  is_completed : Bool
  is_viewed : Bool
  viewed_at : Option ℚ
  completion_percentage : ℚ
  activity_sessions : List (ℚ × ℚ × Int)
deriving DecidableEq, Repr

/-- Python truthiness of an optional integer field: `not x` is true for
`None` and for `0`. -/
def pyFalsy : Option Int → Bool
  | none => true
  | some n => n == 0

/-- Python `x or d` on an optional integer field: `d` when the field is
`None` or `0`, the field's value otherwise. -/
def pyOrDefault : Option Int → Int → Int
  | none, d => d
  | some n, d => if n = 0 then d else n

/-- `calculate_subsection_completion` from the source: if
`required_time_minutes` is falsy, the floor branch applies with
`min_time = min_time_seconds or 30` (100% once `t ≥ min_time`, else
proportional); otherwise the proportional formula over
`required_seconds = required_time_minutes * 60`, clamped with
`min(completion, 100.0)`. -/
def calculate_subsection_completion (progress : SubsectionProgress)
    (subsection : Subsection) : ℚ :=
  if pyFalsy subsection.required_time_minutes then
    let min_time : Int := pyOrDefault subsection.min_time_seconds 30
    if min_time ≤ progress.time_spent_seconds then 100
    else ((progress.time_spent_seconds : ℚ) / (min_time : ℚ)) * 100
  else
    let required_seconds : Int := subsection.required_time_minutes.getD 0 * 60
    let completion : ℚ :=
      ((progress.time_spent_seconds : ℚ) / (required_seconds : ℚ)) * 100
    min completion 100

/-- The completion formula exactly as the spec's words state it: the floor
branch applies when `requiredTimeMinutes` is unset (null), with the floor
defaulting to 30 only when `minTimeSeconds` is null; a set
`requiredTimeMinutes = R` always yields `min(100, 100*t/(R*60))`.  Written
from the spec, to be compared with `calculate_subsection_completion`. -/
def completion_per_spec (t : Int) (required min_time : Option Int) : ℚ :=
  match required with
  | none =>
    let m := min_time.getD 30
    if m ≤ t then 100 else 100 * (t : ℚ) / (m : ℚ)
  | some r => min 100 (100 * (t : ℚ) / ((r : ℚ) * 60))

/-- The completion formula as the spec's words read after amendment:
`requiredTimeMinutes` counts as set only when non-null and nonzero, and
the floor defaults to 30 when `minTimeSeconds` is null or zero (Python
falsiness of the two fields).  Written from the amended words, to be
compared with `calculate_subsection_completion`. -/
def completion_per_spec_amended (t : Int) (required min_time : Option Int) : ℚ :=
  if required = none ∨ required = some 0 then
    let m : Int := if min_time = none ∨ min_time = some 0 then 30
      else min_time.getD 30
    if m ≤ t then 100 else 100 * (t : ℚ) / (m : ℚ)
  else
    min 100 (100 * (t : ℚ) / ((required.getD 0 : ℚ) * 60))

/-- Rejection branches of `validate_activity`, named after the source's
log messages for the three rejecting checks. -/
inductive RejectReason
  | TooFrequent
  | SuspiciousRegularity
  | TooManyActiveSessions
deriving DecidableEq, Repr

/-- Result of `validate_activity`: `accept` carries the (possibly
session-rotated) record, `reject` the reason; the source returns a bare
bool and mutates the record in place for the rotation case. -/
inductive ValidateResult
  | accept (progress : SubsectionProgress)
  | reject (reason : RejectReason)
deriving DecidableEq, Repr

/-- The first block of `validate_activity` (checks guarded by
`if progress.last_activity_at:`): the minimum-interval check and the
regular-pattern check over the externally fetched recent intervals. -/
def interval_reject (progress : SubsectionProgress) (now : ℚ)
    (recent_intervals : List ℚ) : Option RejectReason :=
  match progress.last_activity_at with
  | none => none
  | some last =>
    if now - last < 10 then some .TooFrequent
    else if 149/10 ≤ now - last ∧ now - last ≤ 151/10 then
      if recent_intervals.all (fun i => decide (149/10 ≤ i ∧ i ≤ 151/10)) then
        some .SuspiciousRegularity
      else none
    else none

/-- `validate_activity` from the source.  External reads
(`get_recent_activity_intervals`, `count_active_sessions`) are passed in
as `recent_intervals` and `active_sessions`.  Checks run in source order:
interval checks, then the concurrent-session cap (`active_sessions > 3`),
then the 2-hour cap which rotates `session_start_at` to `now` and still
accepts. -/
def validate_activity (progress : SubsectionProgress) (now : ℚ)
    (recent_intervals : List ℚ) (active_sessions : Int) : ValidateResult :=
  match interval_reject progress now recent_intervals with
  | some r => .reject r
  | none =>
    if 3 < active_sessions then .reject .TooManyActiveSessions
    else
      match progress.session_start_at with
      | none => .accept progress
      | some session_start =>
        if 7200 < now - session_start then
          .accept { progress with session_start_at := some now }
        else .accept progress

/-- Arithmetic mean of a list of rationals. -/
def listMean (xs : List ℚ) : ℚ := xs.sum / (xs.length : ℚ)

/-- Sample variance (denominator `n - 1`), the square of Python's
`statistics.stdev`. -/
def sampleVariance (xs : List ℚ) : ℚ :=
  ((xs.map (fun x => (x - listMean xs) ^ 2)).sum) / ((xs.length : ℚ) - 1)

/-- Successive differences of a list of timestamps, as in the source's
interval comprehension over the recent-activity list. -/
def pairwiseIntervals : List ℚ → List ℚ
  | x :: y :: rest => (y - x) :: pairwiseIntervals (y :: rest)
  | _ => []

/-- `detect_bot_activity` from the source: fewer than 10 recent activities
in the trailing hour means no flag; otherwise the user is flagged exactly
when `statistics.stdev(intervals) < 1.0`.  Since the sample variance is
nonnegative, `stdev < 1.0` is decided here as `sampleVariance < 1`
(`Real.sqrt v < 1 ↔ v < 1` for `0 ≤ v`); the bridge to the standard
deviation is proved in the claim theorem. -/
def detect_bot_activity (recent_activities : List ℚ) : Bool :=
  if recent_activities.length < 10 then false
  else
    let intervals := pairwiseIntervals recent_activities
    let variance := if 1 < intervals.length then sampleVariance intervals else 0
    decide (variance < 1)

/-- `require_captcha_verification` from the source: returns whether a
captcha is demanded together with the TTL written to the cache flag
(3600 s when a fresh bot flag is raised). -/
def require_captcha_verification (captcha_flag_cached : Bool)
    (recent_activities : List ℚ) : Bool × Option Nat :=
  if captcha_flag_cached then (true, none)
  else if detect_bot_activity recent_activities then (true, some 3600)
  else (false, none)

/-- The parts of an incoming HTTP request the limiter and handlers read. -/
structure Request where
  remote_address : String
  user_id : Int
  subsection_id : Int
deriving DecidableEq, Repr

/-- `slowapi.util.get_remote_address`, the key function the source passes
to `Limiter(key_func=get_remote_address)`: the client's remote IP. -/
def get_remote_address (request : Request) : String :=
  request.remote_address

/-- Modelled from the spec: the `slowapi` fixed-window limiter behind
`@limiter.limit("4/minute")` is not part of the repository's source; per
the spec it admits at most `limit` attempts per fixed `window_seconds`
window.  `prior_attempts` are the earlier attempt times recorded for the
same key. -/
def fixed_window_allows (limit : Nat) (window_seconds : Int)
    (prior_attempts : List ℚ) (now : ℚ) : Bool :=
  (prior_attempts.filter
    (fun t => decide (⌊t / (window_seconds : ℚ)⌋ = ⌊now / (window_seconds : ℚ)⌋))).length
    < limit

/-- The key under which the heartbeat endpoint's limiter buckets attempts:
the source's `Limiter(key_func=get_remote_address)`. -/
def heartbeat_rate_key (request : Request) : String :=
  get_remote_address request

/-- Response body of the heartbeat endpoint. -/
structure HeartbeatResponse where
  time_spent_seconds : Int
  completion_percentage : ℚ
  is_completed : Bool
  next_heartbeat_in_seconds : Int
deriving DecidableEq, Repr

/-- Outcome of the heartbeat handler body: success (updated record,
whether the completion cascade fired, response), or one of the HTTP
errors — 403 bot rejection, 404 missing progress record, 429 validator
rejection. -/
inductive HeartbeatResult
  | ok (progress : SubsectionProgress) (cascade_fired : Bool)
      (response : HeartbeatResponse)
  | botRejected
  | sessionNotFound
  | validationRejected (reason : RejectReason)
deriving DecidableEq, Repr

/-- The time credit computed by the heartbeat: nominal 15 s when
`last_activity_at` is unset, otherwise `min(actual_interval, 60)`. -/
def heartbeat_increment (progress : SubsectionProgress) (now : ℚ) : ℚ :=
  match progress.last_activity_at with
  | none => 15
  | some last => min (now - last) 60

/-- The mutation block of `subsection_heartbeat` after validation:
`time_spent_seconds += int(time_increment)`, `last_activity_at = now`,
recompute the percentage, and on `percentage ≥ 100 and not is_completed`
set the completion flags and fire the cascade (second component). -/
def apply_heartbeat (subsection : Subsection) (progress : SubsectionProgress)
    (now : ℚ) : SubsectionProgress × Bool :=
  let p1 := { progress with
    time_spent_seconds :=
      progress.time_spent_seconds + pyTrunc (heartbeat_increment progress now),
    last_activity_at := some now }
  let pct := calculate_subsection_completion p1 subsection
  let p2 := { p1 with completion_percentage := pct }
  if 100 ≤ pct ∧ progress.is_completed = false then
    ({ p2 with is_completed := true, is_viewed := true, viewed_at := some now },
     true)
  else
    (p2, false)

/-- `subsection_heartbeat` (handler body, after the rate-limit decorator):
bot check first (403), then the progress lookup (404 when the record does
not exist), then `validate_activity` (429), then the time/completion
update. -/
def subsection_heartbeat (subsection : Subsection)
    (progress? : Option SubsectionProgress) (now : ℚ)
    (recent_intervals : List ℚ) (active_sessions : Int)
    (user_recent_activities : List ℚ) : HeartbeatResult :=
  if detect_bot_activity user_recent_activities then .botRejected
  else
    match progress? with
    | none => .sessionNotFound
    | some progress =>
      match validate_activity progress now recent_intervals active_sessions with
      | .reject r => .validationRejected r
      | .accept accepted =>
        let pr := apply_heartbeat subsection accepted now
        .ok pr.1 pr.2
          ⟨pr.1.time_spent_seconds, pr.1.completion_percentage,
           pr.1.is_completed, 15⟩

/-- Outcome of the rate-limited heartbeat endpoint. -/
inductive EndpointResult
  | rateLimited
  | handled (result : HeartbeatResult)
deriving DecidableEq, Repr

/-- The heartbeat endpoint: the `@limiter.limit("4/minute")` gate runs
before the handler body; exceeding the window yields the 429
rate-limited error without reaching the body. -/
def heartbeat_endpoint (request : Request) (prior_attempts : List ℚ)
    (subsection : Subsection) (progress? : Option SubsectionProgress)
    (now : ℚ) (recent_intervals : List ℚ) (active_sessions : Int)
    (user_recent_activities : List ℚ) : EndpointResult :=
  if fixed_window_allows 4 60 prior_attempts now then
    .handled (subsection_heartbeat subsection progress? now recent_intervals
      active_sessions user_recent_activities)
  else .rateLimited

/-- A freshly created progress record (`get_or_create` defaults). -/
def default_progress : SubsectionProgress :=
  { time_spent_seconds := 0
    last_activity_at := none
    session_start_at := none
    is_completed := false
    is_viewed := false
    viewed_at := none
    completion_percentage := 0
    activity_sessions := [] }

/-- Response body of the start endpoint (fields this core computes). -/
structure SubsectionSessionResponse where
  started_at : ℚ
  time_spent_seconds : Int
  completion_percentage : ℚ
deriving DecidableEq, Repr

/-- `start_subsection_viewing`: load or lazily create the record, set
`session_start_at = now`, return current cumulative stats.  The source
touches no other field. -/
def start_subsection_viewing (progress? : Option SubsectionProgress)
    (now : ℚ) : SubsectionProgress × SubsectionSessionResponse :=
  let progress := progress?.getD default_progress
  let started := { progress with session_start_at := some now }
  (started,
   ⟨now, started.time_spent_seconds, started.completion_percentage⟩)

/-- Outcome of `complete_subsection_viewing`: the persisted record, or
the 404 raised when no progress record exists. -/
inductive CompleteResult
  | ok (progress : SubsectionProgress)
  | progressNotFound
deriving DecidableEq, Repr

/-- `complete_subsection_viewing`: 404 when the record does not exist;
otherwise, when a session is open, append `{start, end, duration}` (with
`int(session_duration)`) to the history and clear `session_start_at`;
with no open session the record is returned unchanged. -/
def complete_subsection_viewing (progress? : Option SubsectionProgress)
    (now : ℚ) : CompleteResult :=
  match progress? with
  | none => .progressNotFound
  | some progress =>
    match progress.session_start_at with
    | none => .ok progress
    | some session_start =>
      .ok { progress with
        activity_sessions := progress.activity_sessions ++
          [(session_start, now, pyTrunc (now - session_start))],
        session_start_at := none }

/-- One operation against a fixed (user, subsection) progress record,
carrying the per-request environment the handlers read. -/
inductive Op
  | start (now : ℚ)
  | heartbeat (request : Request) (prior_attempts : List ℚ)
      (subsection : Subsection) (now : ℚ) (recent_intervals : List ℚ)
      (active_sessions : Int) (user_recent_activities : List ℚ)
  | complete (now : ℚ)

/-- Effect of one operation on the stored record; the second component
records whether the completion cascade fired on this step.  Error
outcomes commit nothing (the source raises before `session.commit()`). -/
def stepStore (store : Option SubsectionProgress) :
    Op → Option SubsectionProgress × Bool
  | .start now => (some (start_subsection_viewing store now).1, false)
  | .heartbeat request prior_attempts subsection now recent_intervals
      active_sessions user_recent_activities =>
    match heartbeat_endpoint request prior_attempts subsection store now
        recent_intervals active_sessions user_recent_activities with
    | .handled (.ok p fired _) => (some p, fired)
    | _ => (store, false)
  | .complete now =>
    match complete_subsection_viewing store now with
    | .ok p => (some p, false)
    | .progressNotFound => (store, false)

/-- Run a sequence of operations; returns the final stored record and how
many steps fired the completion cascade. -/
def runOps (store : Option SubsectionProgress) :
    List Op → Option SubsectionProgress × Nat
  | [] => (store, 0)
  | op :: ops =>
    ((runOps (stepStore store op).1 ops).1,
     (if (stepStore store op).2 then 1 else 0) +
       (runOps (stepStore store op).1 ops).2)

/-- Cumulative time of the stored record (0 before creation). -/
def timeOf : Option SubsectionProgress → Int
  | none => 0
  | some p => p.time_spent_seconds

/-- Completion flag of the stored record (false before creation). -/
def completedOf : Option SubsectionProgress → Bool
  | none => false
  | some p => p.is_completed

/-! ### Helper lemmas -/

theorem pyTrunc_of_nonneg {q : ℚ} (h : 0 ≤ q) : pyTrunc q = ⌊q⌋ := by
  unfold pyTrunc
  exact if_pos h

theorem le_pyTrunc {n : ℤ} {q : ℚ} (h0 : 0 ≤ (n : ℚ)) (h : (n : ℚ) ≤ q) :
    n ≤ pyTrunc q := by
  rw [pyTrunc_of_nonneg (le_trans h0 h)]
  exact Int.le_floor.mpr h

theorem pyTrunc_le {n : ℤ} {q : ℚ} (h0 : 0 ≤ q) (h : q ≤ (n : ℚ)) :
    pyTrunc q ≤ n := by
  rw [pyTrunc_of_nonneg h0]
  calc ⌊q⌋ ≤ ⌊(n : ℚ)⌋ := Int.floor_le_floor h
    _ = n := Int.floor_intCast n

theorem pyTrunc_fifteen : pyTrunc (15 : ℚ) = 15 := by
  rw [pyTrunc_of_nonneg (by norm_num)]
  norm_num

theorem interval_reject_some_cases {p : SubsectionProgress} {now : ℚ}
    {ints : List ℚ} {r : RejectReason}
    (h : interval_reject p now ints = some r) :
    r = .TooFrequent ∨ r = .SuspiciousRegularity := by
  unfold interval_reject at h
  cases hl : p.last_activity_at with
  | none => rw [hl] at h; exact absurd h (by simp)
  | some l =>
    rw [hl] at h
    dsimp only at h
    rcases lt_or_le (now - l) 10 with hlt | hge
    · rw [if_pos hlt] at h
      exact Or.inl (by injection h with h; exact h.symm)
    · rw [if_neg (not_lt.mpr hge)] at h
      by_cases hband : 149/10 ≤ now - l ∧ now - l ≤ 151/10
      · rw [if_pos hband] at h
        by_cases hall : (ints.all fun i => decide (149/10 ≤ i ∧ i ≤ 151/10)) = true
        · rw [if_pos hall] at h
          exact Or.inr (by injection h with h; exact h.symm)
        · rw [if_neg hall] at h
          exact absurd h (by simp)
      · rw [if_neg hband] at h
        exact absurd h (by simp)

theorem interval_reject_none_gap {p : SubsectionProgress} {now : ℚ}
    {ints : List ℚ} {l : ℚ}
    (h : interval_reject p now ints = none) (hl : p.last_activity_at = some l) :
    10 ≤ now - l := by
  unfold interval_reject at h
  rw [hl] at h
  dsimp only at h
  rcases lt_or_le (now - l) 10 with hlt | hge
  · rw [if_pos hlt] at h
    exact absurd h (by simp)
  · exact hge

theorem interval_reject_too_frequent {p : SubsectionProgress} {now : ℚ}
    {ints : List ℚ} {l : ℚ}
    (hl : p.last_activity_at = some l) (h : now - l < 10) :
    interval_reject p now ints = some .TooFrequent := by
  unfold interval_reject
  rw [hl]
  dsimp only
  rw [if_pos h]

theorem interval_reject_regular {p : SubsectionProgress} {now : ℚ}
    {ints : List ℚ} {l : ℚ}
    (hl : p.last_activity_at = some l)
    (h1 : 149/10 ≤ now - l) (h2 : now - l ≤ 151/10)
    (hall : ∀ i ∈ ints, 149/10 ≤ i ∧ i ≤ 151/10) :
    interval_reject p now ints = some .SuspiciousRegularity := by
  have hallb : (ints.all fun i => decide (149/10 ≤ i ∧ i ≤ 151/10)) = true := by
    rw [List.all_eq_true]
    intro i hi
    exact decide_eq_true_iff.mpr (hall i hi)
  unfold interval_reject
  rw [hl]
  dsimp only
  rw [if_neg (by linarith), if_pos ⟨h1, h2⟩, if_pos hallb]

theorem validate_accept_elim {p p1 : SubsectionProgress} {now : ℚ}
    {ints : List ℚ} {sess : Int}
    (h : validate_activity p now ints sess = .accept p1) :
    interval_reject p now ints = none ∧ ¬(3 < sess) ∧
      (p1 = p ∨ ∃ st, p.session_start_at = some st ∧ 7200 < now - st ∧
        p1 = { p with session_start_at := some now }) := by
  unfold validate_activity at h
  cases hir : interval_reject p now ints with
  | some r =>
    rw [hir] at h
    dsimp only at h
    exact absurd h (by simp)
  | none =>
    rw [hir] at h
    dsimp only at h
    split_ifs at h with hs
    refine ⟨rfl, hs, ?_⟩
    cases hss : p.session_start_at with
    | none =>
      rw [hss] at h
      dsimp only at h
      exact Or.inl (by injection h with h; exact h.symm)
    | some st =>
      rw [hss] at h
      dsimp only at h
      split_ifs at h with h2
      · exact Or.inr ⟨st, rfl, h2, by injection h with h; exact h.symm⟩
      · exact Or.inl (by injection h with h; exact h.symm)

theorem validate_accept_fields {p p1 : SubsectionProgress} {now : ℚ}
    {ints : List ℚ} {sess : Int}
    (h : validate_activity p now ints sess = .accept p1) :
    p1.time_spent_seconds = p.time_spent_seconds ∧
      p1.last_activity_at = p.last_activity_at ∧
      p1.is_completed = p.is_completed := by
  rcases (validate_accept_elim h).2.2 with rfl | ⟨st, _, _, rfl⟩ <;>
    exact ⟨rfl, rfl, rfl⟩

theorem validate_accept_gap {p p1 : SubsectionProgress} {now : ℚ}
    {ints : List ℚ} {sess : Int} {l : ℚ}
    (h : validate_activity p now ints sess = .accept p1)
    (hl : p.last_activity_at = some l) : 10 ≤ now - l :=
  interval_reject_none_gap (validate_accept_elim h).1 hl

theorem heartbeat_increment_congr {p p1 : SubsectionProgress} {now : ℚ}
    (h : p1.last_activity_at = p.last_activity_at) :
    heartbeat_increment p1 now = heartbeat_increment p now := by
  unfold heartbeat_increment
  rw [h]

theorem apply_heartbeat_time (sub : Subsection) (p : SubsectionProgress)
    (now : ℚ) :
    (apply_heartbeat sub p now).1.time_spent_seconds =
      p.time_spent_seconds + pyTrunc (heartbeat_increment p now) := by
  simp only [apply_heartbeat]
  split_ifs <;> rfl

theorem apply_heartbeat_last (sub : Subsection) (p : SubsectionProgress)
    (now : ℚ) :
    (apply_heartbeat sub p now).1.last_activity_at = some now := by
  simp only [apply_heartbeat]
  split_ifs <;> rfl

theorem apply_heartbeat_fired (sub : Subsection) (p : SubsectionProgress)
    (now : ℚ) :
    (apply_heartbeat sub p now).2 = true ↔
      (p.is_completed = false ∧
        100 ≤ (apply_heartbeat sub p now).1.completion_percentage) := by
  simp only [apply_heartbeat]
  split_ifs with h
  · simpa using ⟨h.2, h.1⟩
  · simp only [Bool.false_eq_true, false_iff]
    rintro ⟨hc, hp⟩
    exact h ⟨hp, hc⟩

theorem apply_heartbeat_completed (sub : Subsection) (p : SubsectionProgress)
    (now : ℚ) :
    (apply_heartbeat sub p now).1.is_completed =
      ((apply_heartbeat sub p now).2 || p.is_completed) := by
  simp only [apply_heartbeat]
  split_ifs with h <;> simp [h]

theorem heartbeat_none_not_ok (sub : Subsection) (now : ℚ)
    (ints : List ℚ) (sess : Int) (acts : List ℚ)
    {p' : SubsectionProgress} {fired : Bool} {resp : HeartbeatResponse} :
    subsection_heartbeat sub none now ints sess acts ≠ .ok p' fired resp := by
  simp only [subsection_heartbeat]
  split_ifs <;> simp

theorem heartbeat_ok_elim {sub : Subsection} {p p' : SubsectionProgress}
    {now : ℚ} {ints : List ℚ} {sess : Int} {acts : List ℚ}
    {fired : Bool} {resp : HeartbeatResponse}
    (h : subsection_heartbeat sub (some p) now ints sess acts =
      .ok p' fired resp) :
    detect_bot_activity acts = false ∧
      ∃ p1, validate_activity p now ints sess = .accept p1 ∧
        p' = (apply_heartbeat sub p1 now).1 ∧
        fired = (apply_heartbeat sub p1 now).2 := by
  simp only [subsection_heartbeat] at h
  split_ifs at h with hb
  refine ⟨by simpa using hb, ?_⟩
  cases hv : validate_activity p now ints sess with
  | reject r =>
    rw [hv] at h
    dsimp only at h
    exact absurd h (by simp)
  | accept p1 =>
    rw [hv] at h
    dsimp only at h
    refine ⟨p1, rfl, ?_, ?_⟩ <;> injection h with h1 h2 h3
    · exact h1.symm
    · exact h2.symm

theorem heartbeat_ok_spec {sub : Subsection} {p p' : SubsectionProgress}
    {now : ℚ} {ints : List ℚ} {sess : Int} {acts : List ℚ}
    {fired : Bool} {resp : HeartbeatResponse}
    (h : subsection_heartbeat sub (some p) now ints sess acts =
      .ok p' fired resp) :
    p'.time_spent_seconds =
        p.time_spent_seconds + pyTrunc (heartbeat_increment p now) ∧
      p'.last_activity_at = some now ∧
      (∀ l, p.last_activity_at = some l → 10 ≤ now - l) ∧
      (fired = true ↔ (p.is_completed = false ∧ 100 ≤ p'.completion_percentage)) ∧
      p'.is_completed = (fired || p.is_completed) := by
  obtain ⟨-, p1, hv, hp', hfired⟩ := heartbeat_ok_elim h
  obtain ⟨ht, hl, hc⟩ := validate_accept_fields hv
  subst hp' hfired
  refine ⟨?_, apply_heartbeat_last sub p1 now, ?_, ?_, ?_⟩
  · rw [apply_heartbeat_time, ht, heartbeat_increment_congr hl]
  · intro l hpl
    exact validate_accept_gap hv hpl
  · rw [apply_heartbeat_fired, hc]
  · rw [apply_heartbeat_completed, hc]

theorem heartbeat_credit_bounds {p : SubsectionProgress} {now : ℚ}
    (hgap : ∀ l, p.last_activity_at = some l → 10 ≤ now - l) :
    1 ≤ pyTrunc (heartbeat_increment p now) := by
  unfold heartbeat_increment
  cases hl : p.last_activity_at with
  | none => rw [pyTrunc_fifteen]; norm_num
  | some l =>
    have h10 : (10 : ℚ) ≤ min (now - l) 60 :=
      le_min (hgap l hl) (by norm_num)
    calc (1 : ℤ) ≤ 10 := by norm_num
      _ ≤ pyTrunc (min (now - l) 60) :=
        le_pyTrunc (by norm_num) h10

theorem heartbeat_ok_time_lt {sub : Subsection} {p p' : SubsectionProgress}
    {now : ℚ} {ints : List ℚ} {sess : Int} {acts : List ℚ}
    {fired : Bool} {resp : HeartbeatResponse}
    (h : subsection_heartbeat sub (some p) now ints sess acts =
      .ok p' fired resp) :
    p.time_spent_seconds < p'.time_spent_seconds := by
  obtain ⟨ht, -, hgap, -, -⟩ := heartbeat_ok_spec h
  have := heartbeat_credit_bounds hgap
  omega

theorem endpoint_handled {request : Request} {prior : List ℚ}
    {sub : Subsection} {store : Option SubsectionProgress} {now : ℚ}
    {ints : List ℚ} {sess : Int} {acts : List ℚ} {r : HeartbeatResult}
    (h : heartbeat_endpoint request prior sub store now ints sess acts =
      .handled r) :
    subsection_heartbeat sub store now ints sess acts = r := by
  unfold heartbeat_endpoint at h
  split_ifs at h
  injection h with h

theorem endpoint_limited {request : Request} {prior : List ℚ}
    {sub : Subsection} {store : Option SubsectionProgress} {now : ℚ}
    {ints : List ℚ} {sess : Int} {acts : List ℚ}
    (h : fixed_window_allows 4 60 prior now = false) :
    heartbeat_endpoint request prior sub store now ints sess acts =
      .rateLimited := by
  unfold heartbeat_endpoint
  rw [h]
  rfl

theorem stepStore_start (store : Option SubsectionProgress) (now : ℚ) :
    stepStore store (.start now) =
      (some (start_subsection_viewing store now).1, false) := rfl

theorem stepStore_complete_def (store : Option SubsectionProgress) (now : ℚ) :
    stepStore store (.complete now) =
      match complete_subsection_viewing store now with
      | .ok p => (some p, false)
      | .progressNotFound => (store, false) := rfl

theorem stepStore_heartbeat_def (store : Option SubsectionProgress)
    (request : Request) (prior : List ℚ) (sub : Subsection) (now : ℚ)
    (ints : List ℚ) (sess : Int) (acts : List ℚ) :
    stepStore store (.heartbeat request prior sub now ints sess acts) =
      match heartbeat_endpoint request prior sub store now ints sess acts with
      | .handled (.ok p fired _) => (some p, fired)
      | _ => (store, false) := rfl

theorem stepStore_heartbeat_cases (store : Option SubsectionProgress)
    (request : Request) (prior : List ℚ) (sub : Subsection) (now : ℚ)
    (ints : List ℚ) (sess : Int) (acts : List ℚ) :
    stepStore store (.heartbeat request prior sub now ints sess acts) =
        (store, false) ∨
      ∃ p p' fired resp, store = some p ∧
        subsection_heartbeat sub (some p) now ints sess acts =
          .ok p' fired resp ∧
        stepStore store (.heartbeat request prior sub now ints sess acts) =
          (some p', fired) := by
  rw [stepStore_heartbeat_def]
  cases hE : heartbeat_endpoint request prior sub store now ints sess acts with
  | rateLimited => exact Or.inl rfl
  | handled r =>
    have hr := endpoint_handled hE
    cases r with
    | ok p' fired resp =>
      cases store with
      | none => exact absurd hr (heartbeat_none_not_ok sub now ints sess acts)
      | some p => exact Or.inr ⟨p, p', fired, resp, rfl, hr, rfl⟩
    | botRejected => exact Or.inl rfl
    | sessionNotFound => exact Or.inl rfl
    | validationRejected r => exact Or.inl rfl

theorem stepStore_time_mono (store : Option SubsectionProgress) (op : Op) :
    timeOf store ≤ timeOf (stepStore store op).1 := by
  cases op with
  | start now =>
    rw [stepStore_start]
    cases store with
    | none => exact le_refl _
    | some p => exact le_refl _
  | complete now =>
    rw [stepStore_complete_def]
    cases store with
    | none => exact le_refl _
    | some p =>
      cases hss : p.session_start_at <;>
        simp [complete_subsection_viewing, hss, timeOf]
  | heartbeat request prior sub now ints sess acts =>
    rcases stepStore_heartbeat_cases store request prior sub now ints sess acts
      with hstep | ⟨p, p', fired, resp, rfl, hok, hstep⟩
    · rw [hstep]
    · rw [hstep]
      exact le_of_lt (heartbeat_ok_time_lt hok)

theorem stepStore_completed_sticky (store : Option SubsectionProgress)
    (op : Op) (h : completedOf store = true) :
    completedOf (stepStore store op).1 = true := by
  cases op with
  | start now =>
    rw [stepStore_start]
    cases store with
    | none => exact absurd h (by simp [completedOf])
    | some p => simpa [start_subsection_viewing, completedOf] using h
  | complete now =>
    rw [stepStore_complete_def]
    cases store with
    | none => exact absurd h (by simp [completedOf])
    | some p =>
      cases hss : p.session_start_at <;>
        simpa [complete_subsection_viewing, hss, completedOf] using h
  | heartbeat request prior sub now ints sess acts =>
    rcases stepStore_heartbeat_cases store request prior sub now ints sess acts
      with hstep | ⟨p, p', fired, resp, rfl, hok, hstep⟩
    · rw [hstep]; exact h
    · rw [hstep]
      obtain ⟨-, -, -, -, hcomp⟩ := heartbeat_ok_spec hok
      have hp : p.is_completed = true := by simpa [completedOf] using h
      simp [completedOf, hcomp, hp]

theorem stepStore_no_fire_of_completed (store : Option SubsectionProgress)
    (op : Op) (h : completedOf store = true) :
    (stepStore store op).2 = false := by
  cases op with
  | start now => rw [stepStore_start]
  | complete now =>
    rw [stepStore_complete_def]
    cases hc : complete_subsection_viewing store now <;> rfl
  | heartbeat request prior sub now ints sess acts =>
    rcases stepStore_heartbeat_cases store request prior sub now ints sess acts
      with hstep | ⟨p, p', fired, resp, rfl, hok, hstep⟩
    · rw [hstep]
    · rw [hstep]
      obtain ⟨-, -, -, hfired, -⟩ := heartbeat_ok_spec hok
      have hp : p.is_completed = true := by simpa [completedOf] using h
      cases hf : fired with
      | false => rfl
      | true => exact absurd ((hfired.mp hf).1) (by simp [hp])

theorem stepStore_fired_completed (store : Option SubsectionProgress)
    (op : Op) (h : (stepStore store op).2 = true) :
    completedOf (stepStore store op).1 = true := by
  cases op with
  | start now => rw [stepStore_start] at h; exact absurd h (by simp)
  | complete now =>
    rw [stepStore_complete_def] at h
    cases hc : complete_subsection_viewing store now <;>
      rw [hc] at h <;> exact absurd h (by simp)
  | heartbeat request prior sub now ints sess acts =>
    rcases stepStore_heartbeat_cases store request prior sub now ints sess acts
      with hstep | ⟨p, p', fired, resp, rfl, hok, hstep⟩
    · rw [hstep] at h; exact absurd h (by simp)
    · rw [hstep] at h ⊢
      obtain ⟨-, -, -, -, hcomp⟩ := heartbeat_ok_spec hok
      simp only [completedOf, hcomp]
      simp at h
      simp [h]

theorem runOps_time_mono (store : Option SubsectionProgress) (ops : List Op) :
    timeOf store ≤ timeOf (runOps store ops).1 := by
  induction ops generalizing store with
  | nil => exact le_refl _
  | cons op ops ih =>
    exact le_trans (stepStore_time_mono store op) (ih (stepStore store op).1)

theorem runOps_completed_sticky (store : Option SubsectionProgress)
    (ops : List Op) (h : completedOf store = true) :
    completedOf (runOps store ops).1 = true := by
  induction ops generalizing store with
  | nil => exact h
  | cons op ops ih =>
    exact ih (stepStore store op).1 (stepStore_completed_sticky store op h)

theorem runOps_zero_of_completed (store : Option SubsectionProgress)
    (ops : List Op) (h : completedOf store = true) :
    (runOps store ops).2 = 0 := by
  induction ops generalizing store with
  | nil => rfl
  | cons op ops ih =>
    show (if (stepStore store op).2 then 1 else 0) +
      (runOps (stepStore store op).1 ops).2 = 0
    rw [stepStore_no_fire_of_completed store op h]
    rw [ih (stepStore store op).1 (stepStore_completed_sticky store op h)]
    simp

theorem runOps_fires_le_one (store : Option SubsectionProgress)
    (ops : List Op) : (runOps store ops).2 ≤ 1 := by
  induction ops generalizing store with
  | nil => exact Nat.zero_le 1
  | cons op ops ih =>
    show (if (stepStore store op).2 then 1 else 0) +
      (runOps (stepStore store op).1 ops).2 ≤ 1
    cases hf : (stepStore store op).2 with
    | false => simpa using ih (stepStore store op).1
    | true =>
      rw [runOps_zero_of_completed (stepStore store op).1 ops
        (stepStore_fired_completed store op hf)]
      simp

/-! ### Claim theorems -/

/-- C1, counterexample: the completion function does not satisfy the
claim's formula on all policies.  With `minTimeSeconds = 0` (set but
falsy) and `t = 10` the code treats the floor as 30 and returns 100/3,
while the claim's formula (default 30 only when null) returns 100; with
`requiredTimeMinutes = 0` and `t = 30` the code takes the floor branch
and returns 100, while the claim's required-branch formula does not. -/
theorem C1_counterexample :
    calculate_subsection_completion
        ⟨10, none, none, false, false, none, 0, []⟩ ⟨none, some 0⟩ = 100/3 ∧
      completion_per_spec 10 none (some 0) = 100 ∧
      ((100 : ℚ)/3) ≠ 100 ∧
      calculate_subsection_completion
        ⟨30, none, none, false, false, none, 0, []⟩ ⟨some 0, none⟩ = 100 ∧
      completion_per_spec 30 (some 0) none = 0 ∧
      (100 : ℚ) ≠ 0 := by
  refine ⟨?_, ?_, by norm_num, ?_, ?_, by norm_num⟩ <;>
    norm_num [calculate_subsection_completion, completion_per_spec,
      pyFalsy, pyOrDefault]

/-- C1, amended claim: the completion percentage is a pure function of
`timeSpentSeconds` and the policy; `requiredTimeMinutes` counts as set
only when non-null and nonzero, in which case the result is
`min(100, 100*t/(required*60))`; otherwise the floor branch applies,
with the floor defaulting to 30 when `minTimeSeconds` is null or zero:
100 once `t ≥ floor`, else `100*t/floor`. -/
theorem C1_completion_policy (p : SubsectionProgress) (s : Subsection) :
    calculate_subsection_completion p s =
      completion_per_spec_amended p.time_spent_seconds s.required_time_minutes
        s.min_time_seconds := by
  obtain ⟨req, mt⟩ := s
  obtain ⟨t, la, ss, ic, iv, va, cp, sh⟩ := p
  cases req with
  | none =>
    cases mt with
    | none =>
      simp only [calculate_subsection_completion, completion_per_spec_amended,
        pyFalsy, pyOrDefault]
      norm_num
      split_ifs <;> ring
    | some n =>
      by_cases hn : n = 0
      · subst hn
        simp only [calculate_subsection_completion, completion_per_spec_amended,
          pyFalsy, pyOrDefault]
        norm_num
        split_ifs <;> ring
      · simp only [calculate_subsection_completion, completion_per_spec_amended,
          pyFalsy, pyOrDefault, Option.getD, hn]
        norm_num [hn]
        split_ifs <;> first | ring1 | tauto
  | some r =>
    by_cases hrz : r = 0
    · subst hrz
      cases mt with
      | none =>
        simp only [calculate_subsection_completion, completion_per_spec_amended,
          pyFalsy, pyOrDefault]
        norm_num
        split_ifs <;> ring
      | some n =>
        by_cases hn : n = 0
        · subst hn
          simp only [calculate_subsection_completion, completion_per_spec_amended,
            pyFalsy, pyOrDefault]
          norm_num
          split_ifs <;> ring
        · simp only [calculate_subsection_completion, completion_per_spec_amended,
            pyFalsy, pyOrDefault, Option.getD, hn]
          norm_num [hn]
          split_ifs <;> first | ring1 | tauto
    · simp only [calculate_subsection_completion, completion_per_spec_amended,
        pyFalsy, pyOrDefault, Option.getD, hrz]
      norm_num [hrz]
      rw [min_comm]
      congr 1
      ring

/-- C2: the completion cascade fires on an accepted heartbeat exactly
when the recomputed percentage reaches 100 on a record not yet completed;
a firing heartbeat sets `isCompleted`, `isCompleted` is sticky across
every operation, a completed record never fires again, and over any
operation sequence the cascade fires at most once. -/
theorem C2_cascade_exactly_once :
    (∀ sub p now ints sess acts p' fired resp,
      subsection_heartbeat sub (some p) now ints sess acts =
          .ok p' fired resp →
        ((fired = true ↔
            (p.is_completed = false ∧ 100 ≤ p'.completion_percentage)) ∧
          (fired = true → p'.is_completed = true) ∧
          (p.is_completed = true → p'.is_completed = true))) ∧
      (∀ store op, completedOf store = true →
        completedOf (stepStore store op).1 = true ∧
          (stepStore store op).2 = false) ∧
      (∀ store ops, completedOf store = true → (runOps store ops).2 = 0) ∧
      (∀ store ops, (runOps store ops).2 ≤ 1) := by
  refine ⟨?_, ?_, ?_, ?_⟩
  · intro sub p now ints sess acts p' fired resp h
    obtain ⟨-, -, -, hfired, hcomp⟩ := heartbeat_ok_spec h
    refine ⟨hfired, ?_, ?_⟩
    · intro hf
      simp [hcomp, hf]
    · intro hp
      simp [hcomp, hp]
  · intro store op h
    exact ⟨stepStore_completed_sticky store op h,
      stepStore_no_fire_of_completed store op h⟩
  · exact runOps_zero_of_completed
  · exact runOps_fires_le_one

/-- C2, witness: on a record already completed, a `complete` step keeps
`isCompleted` and fires no cascade. -/
theorem C2_cascade_exactly_once_witness :
    completedOf (stepStore
        (some ⟨50, none, none, true, true, none, 100, []⟩) (.complete 9)).1
        = true ∧
      (stepStore
        (some ⟨50, none, none, true, true, none, 100, []⟩) (.complete 9)).2
        = false :=
  C2_cascade_exactly_once.2.1
    (some ⟨50, none, none, true, true, none, 100, []⟩) (.complete 9) rfl

/-- C4: `timeSpentSeconds` never decreases over any sequence of start,
heartbeat (accepted or rejected) and complete operations; every single
step is non-decreasing, and start and complete leave it unchanged. -/
theorem C4_time_monotone :
    (∀ store ops, timeOf store ≤ timeOf (runOps store ops).1) ∧
      (∀ store op, timeOf store ≤ timeOf (stepStore store op).1) ∧
      (∀ store now, timeOf (stepStore store (.start now)).1 = timeOf store) ∧
      (∀ store now, timeOf (stepStore store (.complete now)).1 = timeOf store) := by
  refine ⟨runOps_time_mono, stepStore_time_mono, ?_, ?_⟩
  · intro store now
    rw [stepStore_start]
    cases store <;> rfl
  · intro store now
    rw [stepStore_complete_def]
    cases store with
    | none => rfl
    | some p =>
      cases hss : p.session_start_at <;>
        simp [complete_subsection_viewing, hss, timeOf]

/-- C3, counterexample: the amount added to `timeSpentSeconds` is the
integer truncation of the clamped interval, not the clamped interval
itself.  At an accepted heartbeat 12.5 s after the last activity the code
adds 12 while `clamp(now - last, 0, 60) = 12.5`. -/
theorem C3_counterexample :
    subsection_heartbeat ⟨none, some 30⟩
        (some ⟨0, some 0, none, false, false, none, 0, []⟩) (25/2) [] 0 [] =
      .ok ⟨12, some (25/2), none, false, false, none, 40, []⟩ false
        ⟨12, 40, false, 15⟩ ∧
      max 0 (min ((25 : ℚ)/2 - 0) 60) = 25/2 ∧
      ((12 : ℚ) - 0) ≠ 25/2 := by
  refine ⟨?_, by norm_num, by norm_num⟩
  norm_num [subsection_heartbeat, detect_bot_activity, validate_activity,
    interval_reject, apply_heartbeat, heartbeat_increment, pyTrunc,
    calculate_subsection_completion, pyFalsy, pyOrDefault]

/-- C3, amended claim: on every accepted heartbeat `lastActivityAt` is set
to `now`; when `lastActivityAt` was unset the credit is the fixed nominal
15 s; when it was set the credit added is the integer truncation
`int(clamp(now - lastActivityAt, 0, 60))`, where the lower clamp is
vacuous because accepted heartbeats have an interval of at least 10 s. -/
theorem C3_heartbeat_increment (sub : Subsection) (p : SubsectionProgress)
    (now : ℚ) (ints : List ℚ) (sess : Int) (acts : List ℚ)
    (p' : SubsectionProgress) (fired : Bool) (resp : HeartbeatResponse)
    (h : subsection_heartbeat sub (some p) now ints sess acts =
      .ok p' fired resp) :
    p'.last_activity_at = some now ∧
      (p.last_activity_at = none →
        p'.time_spent_seconds = p.time_spent_seconds + 15) ∧
      (∀ l, p.last_activity_at = some l →
        p'.time_spent_seconds =
            p.time_spent_seconds + pyTrunc (max 0 (min (now - l) 60)) ∧
          pyTrunc (max 0 (min (now - l) 60)) = pyTrunc (min (now - l) 60)) := by
  obtain ⟨ht, hlast, hgap, -, -⟩ := heartbeat_ok_spec h
  refine ⟨hlast, ?_, ?_⟩
  · intro hnone
    rw [ht]
    simp [heartbeat_increment, hnone, pyTrunc_fifteen]
  · intro l hl
    have h10 : 10 ≤ now - l := hgap l hl
    have hmax : max 0 (min (now - l) 60) = min (now - l) 60 :=
      max_eq_right (le_min (by linarith) (by norm_num))
    rw [hmax]
    refine ⟨?_, rfl⟩
    rw [ht]
    simp [heartbeat_increment, hl]

/-- C3, witness: a heartbeat accepted 20 s after the last activity adds
exactly the truncated clamped interval. -/
theorem C3_heartbeat_increment_witness :
    (⟨23, some 22, none, false, false, none, 23/36, []⟩ :
        SubsectionProgress).time_spent_seconds =
      (⟨3, some 2, none, false, false, none, 10, []⟩ :
        SubsectionProgress).time_spent_seconds +
        pyTrunc (max 0 (min ((22 : ℚ) - 2) 60)) ∧
      pyTrunc (max 0 (min ((22 : ℚ) - 2) 60)) =
        pyTrunc (min ((22 : ℚ) - 2) 60) :=
  (C3_heartbeat_increment ⟨some 60, none⟩
    ⟨3, some 2, none, false, false, none, 10, []⟩ 22 [] 0 []
    ⟨23, some 22, none, false, false, none, 23/36, []⟩ false
    ⟨23, 23/36, false, 15⟩
    (by norm_num [subsection_heartbeat, detect_bot_activity,
      validate_activity, interval_reject, apply_heartbeat,
      heartbeat_increment, pyTrunc, calculate_subsection_completion,
      pyFalsy, pyOrDefault])).2.2 2 rfl

/-- C5, counterexample: a heartbeat on an existing record whose
`sessionStartAt` is null is not rejected with SessionNotFound — it is
processed and accrues time; likewise a second `complete` (no open
session) succeeds as a no-op instead of failing. -/
theorem C5_counterexample :
    ((⟨5, some 0, none, false, false, none, 0, []⟩ :
        SubsectionProgress).session_start_at = none) ∧
      subsection_heartbeat ⟨some 60, none⟩
          (some ⟨5, some 0, none, false, false, none, 0, []⟩) 30 [] 0 [] =
        .ok ⟨35, some 30, none, false, false, none, 35/36, []⟩ false
          ⟨35, 35/36, false, 15⟩ ∧
      subsection_heartbeat ⟨some 60, none⟩
          (some ⟨5, some 0, none, false, false, none, 0, []⟩) 30 [] 0 [] ≠
        .sessionNotFound ∧
      complete_subsection_viewing
          (some ⟨35, some 30, none, false, false, none, 35/36, []⟩) 99 =
        .ok ⟨35, some 30, none, false, false, none, 35/36, []⟩ ∧
      complete_subsection_viewing
          (some ⟨35, some 30, none, false, false, none, 35/36, []⟩) 99 ≠
        .progressNotFound := by
  have hhb : subsection_heartbeat ⟨some 60, none⟩
      (some ⟨5, some 0, none, false, false, none, 0, []⟩) 30 [] 0 [] =
      .ok ⟨35, some 30, none, false, false, none, 35/36, []⟩ false
        ⟨35, 35/36, false, 15⟩ := by
    norm_num [subsection_heartbeat, detect_bot_activity, validate_activity,
      interval_reject, apply_heartbeat, heartbeat_increment, pyTrunc,
      calculate_subsection_completion, pyFalsy, pyOrDefault]
  refine ⟨rfl, hhb, by rw [hhb]; simp, rfl, by simp [complete_subsection_viewing]⟩

/-- C5, amended claim: the heartbeat 404 fires exactly when no
ProgressRecord exists (and the request was not bot-rejected); with an
existing record the heartbeat never yields SessionNotFound even when
`sessionStartAt` is null.  `complete` 404s exactly when no record exists;
on a record with no open session it succeeds without modifying the
record. -/
theorem C5_not_found_semantics :
    (∀ sub now ints sess acts, detect_bot_activity acts = false →
      subsection_heartbeat sub none now ints sess acts = .sessionNotFound) ∧
      (∀ sub p now ints sess acts,
        subsection_heartbeat sub (some p) now ints sess acts ≠
          .sessionNotFound) ∧
      (∀ now, complete_subsection_viewing none now = .progressNotFound) ∧
      (∀ p now, complete_subsection_viewing (some p) now ≠
        .progressNotFound) ∧
      (∀ p now, p.session_start_at = none →
        complete_subsection_viewing (some p) now = .ok p) := by
  refine ⟨?_, ?_, fun now => rfl, ?_, ?_⟩
  · intro sub now ints sess acts hbot
    simp [subsection_heartbeat, hbot]
  · intro sub p now ints sess acts
    simp only [subsection_heartbeat]
    split_ifs with hb
    · simp
    · cases hv : validate_activity p now ints sess <;> simp [hv]
  · intro p now
    simp only [complete_subsection_viewing]
    cases hss : p.session_start_at <;> simp
  · intro p now h
    simp [complete_subsection_viewing, h]

/-- C5, witness: with no stored record and a quiet bot window the
heartbeat yields the 404. -/
theorem C5_not_found_semantics_witness :
    subsection_heartbeat ⟨none, none⟩ none 7 [] 0 [] = .sessionNotFound :=
  C5_not_found_semantics.1 ⟨none, none⟩ 7 [] 0 []
    (by norm_num [detect_bot_activity])

/-- C6: the ActivityValidator contract — an interval under 10 s rejects
as TooFrequent; an interval in the 14.9–15.1 band with every recent
recorded interval in the band rejects as SuspiciousRegularity; more than
3 open sessions (when the interval checks do not already reject) rejects
as TooManyActiveSessions; any validator rejection leaves the stored
record unchanged; and a session open for more than 7200 s does not
reject — it is accepted with `sessionStartAt` rotated to `now`. -/
theorem C6_validator_contract :
    (∀ p now ints sess l, p.last_activity_at = some l → now - l < 10 →
      validate_activity p now ints sess = .reject .TooFrequent) ∧
      (∀ p now ints sess l, p.last_activity_at = some l →
        149/10 ≤ now - l → now - l ≤ 151/10 →
        (∀ i ∈ ints, 149/10 ≤ i ∧ i ≤ 151/10) →
        validate_activity p now ints sess = .reject .SuspiciousRegularity) ∧
      (∀ p now ints sess, 3 < sess →
        validate_activity p now ints sess ≠ .reject .TooFrequent →
        validate_activity p now ints sess ≠ .reject .SuspiciousRegularity →
        validate_activity p now ints sess = .reject .TooManyActiveSessions) ∧
      (∀ request prior sub store now ints sess acts r,
        heartbeat_endpoint request prior sub store now ints sess acts =
          .handled (.validationRejected r) →
        stepStore store (.heartbeat request prior sub now ints sess acts) =
          (store, false)) ∧
      (∀ p now ints sess st, p.session_start_at = some st →
        7200 < now - st → ¬(3 < sess) →
        validate_activity p now ints sess ≠ .reject .TooFrequent →
        validate_activity p now ints sess ≠ .reject .SuspiciousRegularity →
        validate_activity p now ints sess =
          .accept { p with session_start_at := some now }) := by
  refine ⟨?_, ?_, ?_, ?_, ?_⟩
  · intro p now ints sess l hl hlt
    unfold validate_activity
    rw [interval_reject_too_frequent hl hlt]
  · intro p now ints sess l hl h1 h2 hall
    unfold validate_activity
    rw [interval_reject_regular hl h1 h2 hall]
  · intro p now ints sess hsess hne1 hne2
    cases hir : interval_reject p now ints with
    | some r =>
      have hval : validate_activity p now ints sess = .reject r := by
        unfold validate_activity
        rw [hir]
      rcases interval_reject_some_cases hir with rfl | rfl
      · exact absurd hval hne1
      · exact absurd hval hne2
    | none =>
      unfold validate_activity
      rw [hir]
      dsimp only
      rw [if_pos hsess]
  · intro request prior sub store now ints sess acts r hE
    rw [stepStore_heartbeat_def, hE]
  · intro p now ints sess st hst h7200 hsess hne1 hne2
    cases hir : interval_reject p now ints with
    | some r =>
      have hval : validate_activity p now ints sess = .reject r := by
        unfold validate_activity
        rw [hir]
      rcases interval_reject_some_cases hir with rfl | rfl
      · exact absurd hval hne1
      · exact absurd hval hne2
    | none =>
      unfold validate_activity
      rw [hir]
      dsimp only
      rw [if_neg hsess, hst]
      dsimp only
      rw [if_pos h7200]

/-- C6, witness: a heartbeat 5 s after the last activity is rejected as
TooFrequent. -/
theorem C6_validator_contract_witness :
    validate_activity ⟨0, some 0, some 0, false, false, none, 0, []⟩ 5 [] 0 =
      .reject .TooFrequent :=
  C6_validator_contract.1 ⟨0, some 0, some 0, false, false, none, 0, []⟩
    5 [] 0 0 rfl (by norm_num)

theorem pairwiseIntervals_length : ∀ xs : List ℚ,
    (pairwiseIntervals xs).length = xs.length - 1
  | [] => rfl
  | [_] => rfl
  | x :: y :: rest => by
    have h := pairwiseIntervals_length (y :: rest)
    simp only [pairwiseIntervals, List.length_cons] at h ⊢
    omega

/-- C7, counterexample: a bot-like window (10 heartbeats exactly 15 s
apart, stddev 0) flags the user, and the flag by itself rejects the
heartbeat being processed with the 403 — the claim's "does not reject"
is false. -/
theorem C7_counterexample :
    detect_bot_activity [0, 15, 30, 45, 60, 75, 90, 105, 120, 135] = true ∧
      heartbeat_endpoint ⟨"9.9.9.9", 1, 2⟩ [] ⟨none, some 30⟩
          (some default_progress) 150 [] 0
          [0, 15, 30, 45, 60, 75, 90, 105, 120, 135] =
        .handled .botRejected := by
  have hd : detect_bot_activity [0, 15, 30, 45, 60, 75, 90, 105, 120, 135] =
      true := by
    norm_num [detect_bot_activity, pairwiseIntervals, sampleVariance, listMean]
  refine ⟨hd, ?_⟩
  simp [heartbeat_endpoint, fixed_window_allows, subsection_heartbeat, hd]

/-- C7, amended claim: once at least 10 samples exist in the trailing
window, the user is flagged exactly when the sample standard deviation of
inter-heartbeat intervals is below 1.0 s; but in the heartbeat endpoint a
flag immediately rejects the heartbeat with the 403 verification error
(leaving the record unchanged) — the separate captcha-check helper, which
the heartbeat endpoint does not invoke, is what sets the 1-hour
verification marker. -/
theorem C7_bot_detector :
    (∀ acts : List ℚ, detect_bot_activity acts = true ↔
      (10 ≤ acts.length ∧
        Real.sqrt ((sampleVariance (pairwiseIntervals acts) : ℚ) : ℝ) < 1)) ∧
      (∀ sub progress? now ints sess acts, detect_bot_activity acts = true →
        subsection_heartbeat sub progress? now ints sess acts =
          .botRejected) ∧
      (∀ store request prior sub now ints sess acts,
        detect_bot_activity acts = true →
        (stepStore store (.heartbeat request prior sub now ints sess acts)).1 =
          store) ∧
      (∀ acts, require_captcha_verification false acts =
        (detect_bot_activity acts,
          if detect_bot_activity acts then some 3600 else none)) ∧
      (∀ acts, require_captcha_verification true acts = (true, none)) := by
  refine ⟨?_, ?_, ?_, ?_, fun acts => rfl⟩
  · intro acts
    simp only [detect_bot_activity]
    split_ifs with hlen hil
    · simp only [Bool.false_eq_true, false_iff]
      rintro ⟨h10, -⟩
      omega
    · rw [decide_eq_true_iff]
      constructor
      · intro hv
        refine ⟨by omega, ?_⟩
        rw [Real.sqrt_lt' one_pos, one_pow]
        exact_mod_cast hv
      · rintro ⟨-, hs⟩
        rw [Real.sqrt_lt' one_pos, one_pow] at hs
        exact_mod_cast hs
    · exfalso
      rw [pairwiseIntervals_length] at hil
      omega
  · intro sub progress? now ints sess acts h
    simp [subsection_heartbeat, h]
  · intro store request prior sub now ints sess acts h
    rcases stepStore_heartbeat_cases store request prior sub now ints sess acts
      with hstep | ⟨p, p', fired, resp, rfl, hok, hstep⟩
    · rw [hstep]
    · exact absurd (heartbeat_ok_elim hok).1 (by simp [h])
  · intro acts
    simp only [require_captcha_verification, Bool.false_eq_true, if_false]
    cases hd : detect_bot_activity acts <;> simp [hd]

/-- C7, witness: an 11-sample window of perfectly regular heartbeats is
rejected with the 403 by the heartbeat handler. -/
theorem C7_bot_detector_witness :
    subsection_heartbeat ⟨none, none⟩ none 500 [] 0
        [0, 15, 30, 45, 60, 75, 90, 105, 120, 135, 150] = .botRejected :=
  C7_bot_detector.2.1 ⟨none, none⟩ none 500 [] 0
    [0, 15, 30, 45, 60, 75, 90, 105, 120, 135, 150]
    (by norm_num [detect_bot_activity, pairwiseIntervals, sampleVariance,
      listMean])

/-- C8, counterexample: the heartbeat limiter key is the client's remote
address, not `(userId, subsectionId)` — two requests from the same user
for the same subsection but different IPs fall into different limiter
buckets. -/
theorem C8_counterexample :
    heartbeat_rate_key ⟨"10.0.0.1", 7, 42⟩ ≠
        heartbeat_rate_key ⟨"10.0.0.2", 7, 42⟩ ∧
      (⟨"10.0.0.1", 7, 42⟩ : Request).user_id =
        (⟨"10.0.0.2", 7, 42⟩ : Request).user_id ∧
      (⟨"10.0.0.1", 7, 42⟩ : Request).subsection_id =
        (⟨"10.0.0.2", 7, 42⟩ : Request).subsection_id := by
  refine ⟨?_, rfl, rfl⟩
  simp [heartbeat_rate_key, get_remote_address]

/-- C8, amended claim: the heartbeat limiter is a fixed-window limiter
admitting at most 4 attempts per 60-second window, keyed by the client's
remote IP address (slowapi's `get_remote_address`), not by
`(userId, subsectionId)`; an attempt exceeding the window fails with
RateLimited before the bot detector or ActivityValidator are consulted
and without mutating any state. -/
theorem C8_rate_limiter :
    (∀ r : Request, heartbeat_rate_key r = get_remote_address r ∧
      get_remote_address r = r.remote_address) ∧
      (∀ prior (now : ℚ), fixed_window_allows 4 60 prior now = true ↔
        (prior.filter
          (fun t => decide (⌊t / (60 : ℚ)⌋ = ⌊now / (60 : ℚ)⌋))).length < 4) ∧
      (∀ request prior sub store now ints sess acts,
        fixed_window_allows 4 60 prior now = false →
        heartbeat_endpoint request prior sub store now ints sess acts =
          .rateLimited) ∧
      (∀ request prior sub store now ints sess acts,
        fixed_window_allows 4 60 prior now = false →
        stepStore store (.heartbeat request prior sub now ints sess acts) =
          (store, false)) ∧
      (∀ request prior sub store now ints1 sess1 acts1 ints2 sess2 acts2,
        fixed_window_allows 4 60 prior now = false →
        heartbeat_endpoint request prior sub store now ints1 sess1 acts1 =
          heartbeat_endpoint request prior sub store now ints2 sess2 acts2) := by
  refine ⟨fun r => ⟨rfl, rfl⟩, ?_, ?_, ?_, ?_⟩
  · intro prior now
    have hc : ((60 : Int) : ℚ) = (60 : ℚ) := by norm_num
    simp [fixed_window_allows, hc]
  · intro request prior sub store now ints sess acts h
    exact endpoint_limited h
  · intro request prior sub store now ints sess acts h
    rw [stepStore_heartbeat_def, endpoint_limited h]
  · intro request prior sub store now ints1 sess1 acts1 ints2 sess2 acts2 h
    rw [endpoint_limited h, endpoint_limited h]

/-- C8, witness: a fifth attempt inside one window is rate limited. -/
theorem C8_rate_limiter_witness :
    heartbeat_endpoint ⟨"8.8.8.8", 3, 4⟩ [0, 10, 20, 30] ⟨none, none⟩ none
        59 [] 0 [] = .rateLimited :=
  C8_rate_limiter.2.2.1 ⟨"8.8.8.8", 3, 4⟩ [0, 10, 20, 30] ⟨none, none⟩ none
    59 [] 0 [] (by norm_num [fixed_window_allows, List.filter])

/-- C9, counterexample: `start` on a record with an open session does not
append the stale session to the history — it simply overwrites
`sessionStartAt`, leaving the history length unchanged instead of
incremented. -/
theorem C9_counterexample :
    ((⟨77, some 3, some 5, false, false, none, 10, []⟩ :
        SubsectionProgress).session_start_at = some 5) ∧
      (start_subsection_viewing
          (some ⟨77, some 3, some 5, false, false, none, 10, []⟩) 100).1 =
        ⟨77, some 3, some 100, false, false, none, 10, []⟩ ∧
      (start_subsection_viewing
          (some ⟨77, some 3, some 5, false, false, none, 10, []⟩)
          100).1.activity_sessions.length ≠
        (⟨77, some 3, some 5, false, false, none, 10, []⟩ :
          SubsectionProgress).activity_sessions.length + 1 := by
  refine ⟨rfl, rfl, ?_⟩
  norm_num [start_subsection_viewing]

/-- C9, amended claim: `start` lazily creates the record when missing and
otherwise simply overwrites `sessionStartAt = now` without closing the
open session to the history; `lastActivityAt`, `timeSpentSeconds`,
`completionPercentage` and `sessionHistory` are untouched, and the
current cumulative stats are returned. -/
theorem C9_start_semantics :
    (∀ p now, (start_subsection_viewing (some p) now).1 =
      { p with session_start_at := some now }) ∧
      (∀ p now, (start_subsection_viewing (some p) now).2 =
        ⟨now, p.time_spent_seconds, p.completion_percentage⟩) ∧
      (∀ now : ℚ, (start_subsection_viewing none now).1 =
        { default_progress with session_start_at := some now }) ∧
      (∀ now : ℚ, (start_subsection_viewing none now).2 = ⟨now, 0, 0⟩) :=
  ⟨fun _ _ => rfl, fun _ _ => rfl, fun _ => rfl, fun _ => rfl⟩

/-- C10: the credit added by an accepted heartbeat with `lastActivityAt`
set is `int(min(now - lastActivityAt, 60))`, which always lies in
[10, 60] because sub-10-second intervals were already rejected; the
first accepted heartbeat adds exactly 15; hence `timeSpentSeconds`
(an integer) strictly increases on every accepted heartbeat. -/
theorem C10_credit_truncation (sub : Subsection) (p : SubsectionProgress)
    (now : ℚ) (ints : List ℚ) (sess : Int) (acts : List ℚ)
    (p' : SubsectionProgress) (fired : Bool) (resp : HeartbeatResponse)
    (h : subsection_heartbeat sub (some p) now ints sess acts =
      .ok p' fired resp) :
    (p.last_activity_at = none →
        p'.time_spent_seconds = p.time_spent_seconds + 15) ∧
      (∀ l, p.last_activity_at = some l →
        p'.time_spent_seconds =
            p.time_spent_seconds + pyTrunc (min (now - l) 60) ∧
          10 ≤ pyTrunc (min (now - l) 60) ∧
          pyTrunc (min (now - l) 60) ≤ 60) ∧
      p.time_spent_seconds < p'.time_spent_seconds := by
  obtain ⟨ht, -, hgap, -, -⟩ := heartbeat_ok_spec h
  refine ⟨?_, ?_, heartbeat_ok_time_lt h⟩
  · intro hnone
    rw [ht]
    simp [heartbeat_increment, hnone, pyTrunc_fifteen]
  · intro l hl
    have h10 : (10 : ℚ) ≤ min (now - l) 60 :=
      le_min (hgap l hl) (by norm_num)
    refine ⟨?_, le_pyTrunc (by norm_num) (by exact_mod_cast h10),
      pyTrunc_le (by linarith)
        (by exact_mod_cast min_le_right (now - l) (60 : ℚ))⟩
    rw [ht]
    simp [heartbeat_increment, hl]

/-- C10, witness: a heartbeat accepted 60 s after the last activity adds
the truncated capped credit, which lies in [10, 60]. -/
theorem C10_credit_truncation_witness :
    (⟨60, some 61, none, false, false, none, 60, []⟩ :
        SubsectionProgress).time_spent_seconds =
      (⟨0, some 1, none, false, false, none, 0, []⟩ :
        SubsectionProgress).time_spent_seconds +
        pyTrunc (min ((61 : ℚ) - 1) 60) ∧
      10 ≤ pyTrunc (min ((61 : ℚ) - 1) 60) ∧
      pyTrunc (min ((61 : ℚ) - 1) 60) ≤ 60 :=
  (C10_credit_truncation ⟨none, some 100⟩
    ⟨0, some 1, none, false, false, none, 0, []⟩ 61 [] 0 []
    ⟨60, some 61, none, false, false, none, 60, []⟩ false ⟨60, 60, false, 15⟩
    (by norm_num [subsection_heartbeat, detect_bot_activity,
      validate_activity, interval_reject, apply_heartbeat,
      heartbeat_increment, pyTrunc, calculate_subsection_completion,
      pyFalsy, pyOrDefault])).2.1 1 rfl

end KsaiLab
